import Mathlib

/-!
Verification of the `gfx_window_glutin` adapter (`src/lib.rs`).

The adapter glues a windowing/context library (glutin), a GL device backend
(gfx_device_gl) and a format layer (gfx_core).  The adapter's own code is
embedded faithfully below; the three external collaborators are modelled from
the specification's description of their observable contracts (each such
definition says so in its doc comment).  Machine integers in the source are
`u8`/`u16` bit counts and sizes; they are embedded as `Nat`, with the one
subtraction that can underflow modelled as a checked (panicking) operation.
-/

namespace GfxWindowGlutin

/-- Channel encodings of gfx_core's `format::ChannelType`; the adapter only
compares against the `Srgb` tag. -/
inductive ChannelType
  | Int
  | Uint
  | Inorm
  | Unorm
  | Float
  | Srgb
  deriving DecidableEq

/-- Modelled from the spec: a gfx_core surface descriptor, described by the two
observations the adapter uses, `get_total_bits()` and
`get_alpha_stencil_bits()`. -/
structure SurfaceType where
  total_bits : Nat
  alpha_stencil_bits : Nat
  deriving DecidableEq

/-- gfx_core's `format::Format(SurfaceType, ChannelType)`; `.0` is `surface`,
`.1` is `channel`. -/
structure Format where
  surface : SurfaceType
  channel : ChannelType
  deriving DecidableEq

/-- Modelled from the spec: gfx texture `Dimensions`, a 4-tuple
(width, height, array-layer count, multisample count); two values are equal
iff all four fields match. -/
abbrev Dimensions := Nat × Nat × Nat × Nat

/-- Modelled from the spec: a raw view handle references a GPU image and
carries the Dimensions and surface format it was created with; `id` is the
allocation identity distinguishing handles. -/
structure RawView where
  id : Nat
  dim : Dimensions
  surface : SurfaceType
  deriving DecidableEq

/-- Modelled from the spec: the device backend's allocator
`create_main_targets_raw(dimensions, color_format, depth_format)`, which
returns a freshly allocated color view and depth-stencil view sized to the
given Dimensions.  Freshness of handles is modelled by threading a counter of
the next unused allocation identity. -/
def create_main_targets_raw (dim : Dimensions) (cf df : SurfaceType) (a : Nat) :
    (RawView × RawView) × Nat :=
  ((⟨a, dim, cf⟩, ⟨a + 1, dim, df⟩), a + 2)

/-- Modelled from the spec: a not-yet-current windowed context, described by
the observations the adapter makes of it after activation: physical pixel
size and the applied pixel format's multisample count. -/
structure WindowNC where
  physical_width : Nat
  physical_height : Nat
  multisampling : Option Nat
  deriving DecidableEq

/-- Modelled from the spec: a possibly-current windowed context with the same
observations. -/
structure WindowPC where
  physical_width : Nat
  physical_height : Nat
  multisampling : Option Nat
  deriving DecidableEq

/-- Modelled from the spec: context activation (`make_current`), consuming the
not-current context and producing the current one; activation failure is
unrecoverable (the source unwraps) and has no typed error path, so it is
outside this model. -/
def make_current (w : WindowNC) : WindowPC :=
  ⟨w.physical_width, w.physical_height, w.multisampling⟩

/-- `get_window_dimensions` (src/lib.rs:134-143): physical width and height,
a layer count fixed at 1, and `get_pixel_format().multisampling.unwrap_or(0)`
as the sample count. -/
def get_window_dimensions (ctx : WindowPC) : Dimensions :=
  (ctx.physical_width, ctx.physical_height, 1, ctx.multisampling.getD 0)

/-- Opaque device handle produced by the backend. -/
abbrev Device := Unit

/-- Opaque resource-factory handle produced by the backend. -/
abbrev Factory := Unit

/-- Modelled from the spec: the device backend's
`create(proc_address_resolver) -> (device, factory)` constructor; the
resolver closure is bound to the current context. -/
def device_gl_create (_w : WindowPC) : Device × Factory :=
  ((), ())

/-- `init_existing_raw` (src/lib.rs:183-205): make the context current, build
device and factory, then allocate the main color/depth targets at the
window's current dimensions. -/
def init_existing_raw (window : WindowNC) (color_format ds_format : Format) (a : Nat) :
    (WindowPC × Device × Factory × RawView × RawView) × Nat :=
  let window := make_current window
  let devfac := device_gl_create window
  let dim := get_window_dimensions window
  let r := create_main_targets_raw dim color_format.surface ds_format.surface a
  ((window, devfac.1, devfac.2, r.1.1, r.1.2), r.2)

/-- Typed render-target view: the raw handle tagged with a phantom color
format (`handle::RenderTargetView<R, Cf>`). -/
structure RenderTargetView (Cf : Format) where
  raw : RawView
  deriving DecidableEq

/-- Typed depth-stencil view: the raw handle tagged with a phantom depth
format (`handle::DepthStencilView<R, Df>`). -/
structure DepthStencilView (Df : Format) where
  raw : RawView
  deriving DecidableEq

/-- `get_dimensions` of a typed color view: read off the raw handle. -/
def RenderTargetView.get_dimensions {Cf : Format} (v : RenderTargetView Cf) : Dimensions :=
  v.raw.dim

/-- `get_dimensions` of a typed depth-stencil view: read off the raw handle. -/
def DepthStencilView.get_dimensions {Df : Format} (v : DepthStencilView Df) : Dimensions :=
  v.raw.dim

/-- `init_existing` (src/lib.rs:110-132): the raw core with the two raw views
wrapped by `Typed::new`. -/
def init_existing (Cf Df : Format) (window : WindowNC) (a : Nat) :
    (WindowPC × Device × Factory × RenderTargetView Cf × DepthStencilView Df) × Nat :=
  match init_existing_raw window Cf Df a with
  | ((w, dev, fac, cv, dv), a') => ((w, dev, fac, ⟨cv⟩, ⟨dv⟩), a')

/-- Window-builder value of the windowing collaborator (opaque to the
adapter). -/
structure WindowBuilder where
  title : String
  deriving DecidableEq

/-- Event-dispatch handle required by the windowing collaborator to create a
window (opaque to the adapter). -/
abbrev EventLoop := Unit

/-- The single error kind: context/window creation failure carrying an opaque
platform-specific reason. -/
structure CreationError where
  reason : Nat
  deriving DecidableEq

/-- The format parameters `init_raw` applies to the context builder, in the
order it configures them: depth-buffer bits, stencil-buffer bits, pixel
format bits (color, alpha), sRGB flag. -/
structure ContextParams where
  depth_bits : Nat
  stencil_bits : Nat
  color_bits : Nat
  alpha_bits : Nat
  srgb : Bool
  deriving DecidableEq

/-- Modelled from the spec: the windowing collaborator's context builder.
`build` is `build_windowed` on the configuration obtained by applying the
given format parameters, yielding a not-current windowed context or a
creation error. -/
structure ContextBuilder where
  build : WindowBuilder → EventLoop → ContextParams → Except CreationError WindowNC

/-- Unsigned subtraction as performed on the `u8` bit counts in `init_raw`:
defined only when no underflow occurs (underflow is a panic in the source,
modelled as `none`). -/
def checkedSub (a b : Nat) : Option Nat :=
  if b ≤ a then some (a - b) else none

/-- The format-negotiation block of `init_raw` (src/lib.rs:162-172): split the
color format into color/alpha bits and the depth-stencil format into
depth/stencil bits, and compute the sRGB flag. -/
def negotiate (color_format ds_format : Format) : Option ContextParams :=
  let color_total_bits := color_format.surface.total_bits
  let alpha_bits := color_format.surface.alpha_stencil_bits
  let depth_total_bits := ds_format.surface.total_bits
  let stencil_bits := ds_format.surface.alpha_stencil_bits
  match checkedSub depth_total_bits stencil_bits, checkedSub color_total_bits alpha_bits with
  | some depth, some color =>
      some ⟨depth, stencil_bits, color, alpha_bits,
            color_format.channel == ChannelType.Srgb⟩
  | _, _ => none

/-- The tail of `init_raw` after format negotiation: ask the collaborator to
build the windowed context with the negotiated parameters, propagate a
creation error verbatim, and otherwise continue with `init_existing_raw`. -/
def buildAndInit (cb : ContextBuilder) (wb : WindowBuilder) (el : EventLoop)
    (p : ContextParams) (color_format ds_format : Format) (a : Nat) :
    Except CreationError ((WindowPC × Device × Factory × RawView × RawView) × Nat) :=
  match cb.build wb el p with
  | .error e => .error e
  | .ok w => .ok (init_existing_raw w color_format ds_format a)

/-- `init_raw` (src/lib.rs:146-180).  The outer `Option` models the panic of
the unchecked `u8` subtractions in the negotiation block; the `Except` is the
source's `Result<_, CreationError>`. -/
def init_raw (wb : WindowBuilder) (cb : ContextBuilder) (el : EventLoop)
    (color_format ds_format : Format) (a : Nat) :
    Option (Except CreationError ((WindowPC × Device × Factory × RawView × RawView) × Nat)) :=
  match negotiate color_format ds_format with
  | none => none
  | some p => some (buildAndInit cb wb el p color_format ds_format a)

/-- `init` (src/lib.rs:55-88): `init_raw` at the formats obtained from the
type parameters, with the raw views wrapped by `Typed::new`; the `?` operator
propagates the creation error unchanged. -/
def init (Cf Df : Format) (wb : WindowBuilder) (cb : ContextBuilder) (el : EventLoop) (a : Nat) :
    Option (Except CreationError
      ((WindowPC × Device × Factory × RenderTargetView Cf × DepthStencilView Df) × Nat)) :=
  match init_raw wb cb el Cf Df a with
  | none => none
  | some (.error e) => some (.error e)
  | some (.ok ((w, dev, fac, cv, dv), a')) => some (.ok ((w, dev, fac, ⟨cv⟩, ⟨dv⟩), a'))

/-- `update_views_raw` (src/lib.rs:225-244): recompute the window's current
dimensions; if they differ from `old_dimensions`, allocate and return new
main targets, otherwise report no change. -/
def update_views_raw (window : WindowPC) (old_dimensions : Dimensions)
    (color_format ds_format : Format) (a : Nat) :
    Option ((RawView × RawView) × Nat) :=
  let dim := get_window_dimensions window
  if dim ≠ old_dimensions then
    some (create_main_targets_raw dim color_format.surface ds_format.surface a)
  else
    none

/-- `update_views` (src/lib.rs:208-222): read the color view's dimensions,
assert they equal the depth-stencil view's dimensions (`none` models the
assertion panic), and overwrite both handles only when `update_views_raw`
produced new views.  The result carries the (possibly replaced) handles and
the allocator state. -/
def update_views (Cf Df : Format) (window : WindowPC)
    (color_view : RenderTargetView Cf) (ds_view : DepthStencilView Df) (a : Nat) :
    Option ((RenderTargetView Cf × DepthStencilView Df) × Nat) :=
  let dim := color_view.get_dimensions
  if dim = ds_view.get_dimensions then
    match update_views_raw window dim Cf Df a with
    | some ((cv, dv), a') => some ((⟨cv⟩, ⟨dv⟩), a')
    | none => some ((color_view, ds_view), a)
  else
    none

/-- `new_views` (src/lib.rs:248-261): allocate main targets at the window's
current dimensions, ignoring any prior dimensions, and wrap them. -/
def new_views (Cf Df : Format) (window : WindowPC) (a : Nat) :
    (RenderTargetView Cf × DepthStencilView Df) × Nat :=
  let dim := get_window_dimensions window
  match create_main_targets_raw dim Cf.surface Df.surface a with
  | ((cv, dv), a') => ((⟨cv⟩, ⟨dv⟩), a')

/-- A concrete color format (Rgba8 with sRGB encoding: 32 total bits, 8 of
them alpha), used in witnesses. -/
def rgba8S : Format := ⟨⟨32, 8⟩, ChannelType.Srgb⟩

/-- A concrete depth-stencil format (D24S8: 32 total bits, 8 of them stencil),
used in witnesses. -/
def d24s8 : Format := ⟨⟨32, 8⟩, ChannelType.Unorm⟩

/-- A concrete window builder, used in witnesses. -/
def wbDemo : WindowBuilder := ⟨"demo"⟩

/-- A concrete context builder that always succeeds with an 800x600
non-multisampled window, used in witnesses. -/
def cbOk : ContextBuilder := ⟨fun _ _ _ => .ok ⟨800, 600, none⟩⟩

/-- A concrete context builder that always fails with creation error 7, used
in witnesses. -/
def cbFail : ContextBuilder := ⟨fun _ _ _ => .error ⟨7⟩⟩

/-! ### Helper lemmas -/

/-- Evaluation of `init_existing_raw`: the views are allocated at the current
window dimensions with consecutive fresh identities. -/
lemma init_existing_raw_eq (w : WindowNC) (Cf Df : Format) (a : Nat) :
    init_existing_raw w Cf Df a =
      ((make_current w, (), (),
        ⟨a, get_window_dimensions (make_current w), Cf.surface⟩,
        ⟨a + 1, get_window_dimensions (make_current w), Df.surface⟩), a + 2) := rfl

/-- Dimension equality of tuples is equality of all four fields. -/
lemma dimensions_eq_iff (d e : Dimensions) :
    d = e ↔ (d.1 = e.1 ∧ d.2.1 = e.2.1 ∧ d.2.2.1 = e.2.2.1 ∧ d.2.2.2 = e.2.2.2) := by
  simp [Prod.ext_iff, and_assoc]

/-- A successful `init_raw` result carries a color view and a depth-stencil
view with the same dimensions. -/
lemma init_raw_ok_dim_eq (wb : WindowBuilder) (cb : ContextBuilder) (el : EventLoop)
    (Cf Df : Format) (a : Nat)
    (out : (WindowPC × Device × Factory × RawView × RawView) × Nat)
    (h : init_raw wb cb el Cf Df a = some (.ok out)) :
    out.1.2.2.2.1.dim = out.1.2.2.2.2.dim := by
  unfold init_raw at h
  split at h
  · exact Option.noConfusion h
  · rw [Option.some.injEq] at h
    unfold buildAndInit at h
    split at h
    · exact Except.noConfusion h
    · rw [Except.ok.injEq] at h
      subst h
      rfl

/-- A `some` result of `update_views_raw` carries two views with the same
dimensions. -/
lemma update_views_raw_some_dim_eq (w : WindowPC) (old : Dimensions) (Cf Df : Format)
    (a : Nat) (r : (RawView × RawView) × Nat)
    (h : update_views_raw w old Cf Df a = some r) :
    r.1.1.dim = r.1.2.dim := by
  simp only [update_views_raw] at h
  split at h
  · rw [Option.some.injEq] at h
    subst h
    rfl
  · exact Option.noConfusion h

/-- A `some` result of `update_views` carries two views with the same
dimensions. -/
lemma update_views_some_dim_eq (Cf Df : Format) (w : WindowPC)
    (cv : RenderTargetView Cf) (dv : DepthStencilView Df) (a : Nat)
    (r : (RenderTargetView Cf × DepthStencilView Df) × Nat)
    (h : update_views Cf Df w cv dv a = some r) :
    r.1.1.raw.dim = r.1.2.raw.dim := by
  simp only [update_views] at h
  split at h
  case isTrue hpair =>
    split at h
    case h_1 c d a' heq =>
      rw [Option.some.injEq] at h
      subst h
      exact update_views_raw_some_dim_eq w cv.get_dimensions Cf Df a ((c, d), a') heq
    case h_2 =>
      rw [Option.some.injEq] at h
      subst h
      exact hpair
  case isFalse =>
    exact Option.noConfusion h

/-! ### Claims -/

/-- C1: `update_views_raw` returns `none` iff the window's current Dimensions
agree with `old_dimensions` in all four fields (width, height, layer count,
multisample count), and whenever any field differs it returns a pair of
freshly allocated views sized to the current Dimensions. -/
theorem update_views_raw_no_change_iff (window : WindowPC) (old_dimensions : Dimensions)
    (color_format ds_format : Format) (a : Nat) :
    (update_views_raw window old_dimensions color_format ds_format a = none ↔
      ((get_window_dimensions window).1 = old_dimensions.1 ∧
       (get_window_dimensions window).2.1 = old_dimensions.2.1 ∧
       (get_window_dimensions window).2.2.1 = old_dimensions.2.2.1 ∧
       (get_window_dimensions window).2.2.2 = old_dimensions.2.2.2)) ∧
    (get_window_dimensions window ≠ old_dimensions →
      update_views_raw window old_dimensions color_format ds_format a =
        some ((⟨a, get_window_dimensions window, color_format.surface⟩,
               ⟨a + 1, get_window_dimensions window, ds_format.surface⟩), a + 2)) := by
  constructor
  · rw [← dimensions_eq_iff]
    by_cases h : get_window_dimensions window = old_dimensions
    · simp [update_views_raw, h]
    · simp [update_views_raw, h]
  · intro hne
    simp [update_views_raw, hne, create_main_targets_raw]

/-- Witness for C1 on the spec's scenario: window resized to 1024x768 while
the recorded dimensions are still 800x600. -/
theorem update_views_raw_no_change_iff_witness :
    get_window_dimensions ⟨1024, 768, none⟩ ≠ ((800, 600, 1, 0) : Dimensions) ∧
    update_views_raw ⟨1024, 768, none⟩ (800, 600, 1, 0) rgba8S d24s8 0 =
      some ((⟨0, get_window_dimensions ⟨1024, 768, none⟩, rgba8S.surface⟩,
             ⟨1, get_window_dimensions ⟨1024, 768, none⟩, d24s8.surface⟩), 2) :=
  ⟨by decide,
   (update_views_raw_no_change_iff ⟨1024, 768, none⟩ (800, 600, 1, 0) rgba8S d24s8 0).2
     (by decide)⟩

/-- C3: `update_views` fails the assertion (modelled as `none`) whenever the
color view's dimensions and the depth-stencil view's dimensions differ, for
every window and allocator state — i.e. before any resize comparison with the
window and before any view replacement. -/
theorem update_views_asserts_matching_dimensions (Cf Df : Format) (window : WindowPC)
    (color_view : RenderTargetView Cf) (ds_view : DepthStencilView Df) (a : Nat)
    (h : color_view.get_dimensions ≠ ds_view.get_dimensions) :
    update_views Cf Df window color_view ds_view a = none := by
  simp [update_views, h]

/-- Witness for C3: an 800x600 color view paired with a 640x480 depth-stencil
view is rejected. -/
theorem update_views_asserts_matching_dimensions_witness :
    update_views rgba8S d24s8 ⟨800, 600, none⟩
      ⟨⟨0, (800, 600, 1, 0), rgba8S.surface⟩⟩
      ⟨⟨1, (640, 480, 1, 0), d24s8.surface⟩⟩ 2 = none :=
  update_views_asserts_matching_dimensions rgba8S d24s8 ⟨800, 600, none⟩
    ⟨⟨0, (800, 600, 1, 0), rgba8S.surface⟩⟩
    ⟨⟨1, (640, 480, 1, 0), d24s8.surface⟩⟩ 2 (by decide)

/-- C7: when the window's current dimensions equal the views' dimensions,
`update_views` leaves the caller's handles completely unchanged: the same two
handles come back and the allocator state is untouched (no allocation). -/
theorem update_views_no_resize_no_mutation (Cf Df : Format) (window : WindowPC)
    (color_view : RenderTargetView Cf) (ds_view : DepthStencilView Df) (a : Nat)
    (hpair : color_view.get_dimensions = ds_view.get_dimensions)
    (hcur : get_window_dimensions window = color_view.get_dimensions) :
    update_views Cf Df window color_view ds_view a = some ((color_view, ds_view), a) := by
  simp [update_views, update_views_raw, hpair, hcur]

/-- Witness for C7: an 800x600 window with matching 800x600 views. -/
theorem update_views_no_resize_no_mutation_witness :
    update_views rgba8S d24s8 ⟨800, 600, none⟩
      ⟨⟨5, (800, 600, 1, 0), rgba8S.surface⟩⟩
      ⟨⟨6, (800, 600, 1, 0), d24s8.surface⟩⟩ 7 =
      some ((⟨⟨5, (800, 600, 1, 0), rgba8S.surface⟩⟩,
             ⟨⟨6, (800, 600, 1, 0), d24s8.surface⟩⟩), 7) :=
  update_views_no_resize_no_mutation rgba8S d24s8 ⟨800, 600, none⟩
    ⟨⟨5, (800, 600, 1, 0), rgba8S.surface⟩⟩
    ⟨⟨6, (800, 600, 1, 0), d24s8.surface⟩⟩ 7 (by decide) (by decide)

/-- C8: `new_views` always allocates at the window's current Dimensions
(there is no prior-dimensions input at all), and two successive calls with no
intervening resize yield Dimensions-equal view pairs with pairwise distinct
handle identities. -/
theorem new_views_current_dimensions (Cf Df : Format) (window : WindowPC) (a : Nat) :
    ((new_views Cf Df window a).1.1.raw.dim = get_window_dimensions window ∧
     (new_views Cf Df window a).1.2.raw.dim = get_window_dimensions window) ∧
    ((new_views Cf Df window (new_views Cf Df window a).2).1.1.raw.dim =
        (new_views Cf Df window a).1.1.raw.dim ∧
     (new_views Cf Df window (new_views Cf Df window a).2).1.2.raw.dim =
        (new_views Cf Df window a).1.2.raw.dim) ∧
    ((new_views Cf Df window (new_views Cf Df window a).2).1.1.raw.id ≠
        (new_views Cf Df window a).1.1.raw.id ∧
     (new_views Cf Df window (new_views Cf Df window a).2).1.2.raw.id ≠
        (new_views Cf Df window a).1.2.raw.id ∧
     (new_views Cf Df window a).1.1.raw.id ≠ (new_views Cf Df window a).1.2.raw.id) := by
  refine ⟨⟨rfl, rfl⟩, ⟨rfl, rfl⟩, ?_, ?_, ?_⟩ <;>
    simp [new_views, create_main_targets_raw]

/-- C2: the creation error is surfaced only as a returned value.  When the
windowing collaborator fails with `e` at the negotiated parameters, `init_raw`
and `init` return exactly `.error e` — verbatim, with no retry and no fallback
negotiation — while `init_existing_raw` and `init_existing` (whose embedding
has no error channel at all) always return a plain value. -/
theorem init_error_returned_verbatim (wb : WindowBuilder) (cb : ContextBuilder)
    (el : EventLoop) (Cf Df : Format) (a : Nat) (p : ContextParams) (e : CreationError)
    (hneg : negotiate Cf Df = some p) (hb : cb.build wb el p = .error e) :
    init_raw wb cb el Cf Df a = some (.error e) ∧
    init Cf Df wb cb el a = some (.error e) ∧
    (∀ w : WindowNC, init_existing_raw w Cf Df a =
      ((make_current w, (), (),
        ⟨a, get_window_dimensions (make_current w), Cf.surface⟩,
        ⟨a + 1, get_window_dimensions (make_current w), Df.surface⟩), a + 2)) ∧
    (∀ w : WindowNC, init_existing Cf Df w a =
      ((make_current w, (), (),
        ⟨⟨a, get_window_dimensions (make_current w), Cf.surface⟩⟩,
        ⟨⟨a + 1, get_window_dimensions (make_current w), Df.surface⟩⟩), a + 2)) := by
  have h1 : init_raw wb cb el Cf Df a = some (.error e) := by
    simp [init_raw, hneg, buildAndInit, hb]
  exact ⟨h1, by simp [init, h1], fun w => rfl, fun w => rfl⟩

/-- Witness for C2: a context builder that always fails with error 7. -/
theorem init_error_returned_verbatim_witness :
    init_raw wbDemo cbFail () rgba8S d24s8 0 = some (.error ⟨7⟩) ∧
    init rgba8S d24s8 wbDemo cbFail () 0 = some (.error ⟨7⟩) :=
  ⟨(init_error_returned_verbatim wbDemo cbFail () rgba8S d24s8 0
      ⟨24, 8, 24, 8, true⟩ ⟨7⟩ (by decide) rfl).1,
   (init_error_returned_verbatim wbDemo cbFail () rgba8S d24s8 0
      ⟨24, 8, 24, 8, true⟩ ⟨7⟩ (by decide) rfl).2.1⟩

/-- C4: for a color format with total bits T and alpha bits A (A ≤ T) and a
depth-stencil format with total bits T' and stencil bits S (S ≤ T'),
`init_raw` configures the context with depth bits T' − S, stencil bits S,
color bits T − A and alpha bits A: negotiation yields exactly these
parameters and `init_raw` hands exactly them to the context builder. -/
theorem init_raw_bit_arithmetic (wb : WindowBuilder) (cb : ContextBuilder) (el : EventLoop)
    (Cf Df : Format) (a : Nat)
    (hc : Cf.surface.alpha_stencil_bits ≤ Cf.surface.total_bits)
    (hd : Df.surface.alpha_stencil_bits ≤ Df.surface.total_bits) :
    negotiate Cf Df = some
      ⟨Df.surface.total_bits - Df.surface.alpha_stencil_bits,
       Df.surface.alpha_stencil_bits,
       Cf.surface.total_bits - Cf.surface.alpha_stencil_bits,
       Cf.surface.alpha_stencil_bits,
       Cf.channel == ChannelType.Srgb⟩ ∧
    init_raw wb cb el Cf Df a = some (buildAndInit cb wb el
      ⟨Df.surface.total_bits - Df.surface.alpha_stencil_bits,
       Df.surface.alpha_stencil_bits,
       Cf.surface.total_bits - Cf.surface.alpha_stencil_bits,
       Cf.surface.alpha_stencil_bits,
       Cf.channel == ChannelType.Srgb⟩ Cf Df a) := by
  have hneg : negotiate Cf Df = some
      ⟨Df.surface.total_bits - Df.surface.alpha_stencil_bits,
       Df.surface.alpha_stencil_bits,
       Cf.surface.total_bits - Cf.surface.alpha_stencil_bits,
       Cf.surface.alpha_stencil_bits,
       Cf.channel == ChannelType.Srgb⟩ := by
    simp [negotiate, checkedSub, hc, hd]
  exact ⟨hneg, by simp [init_raw, hneg]⟩

/-- Witness for C4: Rgba8/sRGB against D24S8 gives 24/8 color/alpha bits and
24/8 depth/stencil bits. -/
theorem init_raw_bit_arithmetic_witness :
    negotiate rgba8S d24s8 = some ⟨24, 8, 24, 8, true⟩ ∧
    init_raw wbDemo cbOk () rgba8S d24s8 0 =
      some (buildAndInit cbOk wbDemo () ⟨24, 8, 24, 8, true⟩ rgba8S d24s8 0) :=
  init_raw_bit_arithmetic wbDemo cbOk () rgba8S d24s8 0 (by decide) (by decide)

/-- C5: the sRGB flag handed to context creation is `true` iff the color
format's channel encoding is the sRGB tag, and `init_raw` passes the
negotiated parameters (including that flag) to the context builder. -/
theorem init_raw_srgb_flag (Cf Df : Format) (p : ContextParams)
    (h : negotiate Cf Df = some p) :
    (p.srgb = true ↔ Cf.channel = ChannelType.Srgb) ∧
    ∀ (wb : WindowBuilder) (cb : ContextBuilder) (el : EventLoop) (a : Nat),
      init_raw wb cb el Cf Df a = some (buildAndInit cb wb el p Cf Df a) := by
  have hs : p.srgb = (Cf.channel == ChannelType.Srgb) := by
    simp only [negotiate] at h
    split at h
    · rw [Option.some.injEq] at h
      subst h
      rfl
    · exact Option.noConfusion h
  refine ⟨?_, ?_⟩
  · rw [hs]
    exact beq_iff_eq
  · intro wb cb el a
    simp [init_raw, h]

/-- Witness for C5: for the sRGB color format the flag is set, and `init_raw`
passes it along. -/
theorem init_raw_srgb_flag_witness :
    ((⟨24, 8, 24, 8, true⟩ : ContextParams).srgb = true ↔
      rgba8S.channel = ChannelType.Srgb) ∧
    init_raw wbDemo cbOk () rgba8S d24s8 0 =
      some (buildAndInit cbOk wbDemo () ⟨24, 8, 24, 8, true⟩ rgba8S d24s8 0) :=
  ⟨(init_raw_srgb_flag rgba8S d24s8 ⟨24, 8, 24, 8, true⟩ (by decide)).1,
   (init_raw_srgb_flag rgba8S d24s8 ⟨24, 8, 24, 8, true⟩ (by decide)).2 wbDemo cbOk () 0⟩

/-- C10: the bit-splitting subtractions in `init_raw` are unguarded unsigned
subtractions, well-defined exactly when alpha bits do not exceed the color
format's total bits and stencil bits do not exceed the depth-stencil format's
total bits; under that precondition negotiation (and hence `init_raw`) has no
failure branch, and outside it the subtraction underflows (a panic, modelled
as `none`). -/
theorem init_raw_subtraction_guard (wb : WindowBuilder) (cb : ContextBuilder)
    (el : EventLoop) (Cf Df : Format) (a : Nat) :
    ((negotiate Cf Df).isSome ↔
      (Cf.surface.alpha_stencil_bits ≤ Cf.surface.total_bits ∧
       Df.surface.alpha_stencil_bits ≤ Df.surface.total_bits)) ∧
    ((init_raw wb cb el Cf Df a).isSome ↔
      (Cf.surface.alpha_stencil_bits ≤ Cf.surface.total_bits ∧
       Df.surface.alpha_stencil_bits ≤ Df.surface.total_bits)) := by
  have key : (negotiate Cf Df).isSome ↔
      (Cf.surface.alpha_stencil_bits ≤ Cf.surface.total_bits ∧
       Df.surface.alpha_stencil_bits ≤ Df.surface.total_bits) := by
    by_cases hc : Cf.surface.alpha_stencil_bits ≤ Cf.surface.total_bits <;>
      by_cases hd : Df.surface.alpha_stencil_bits ≤ Df.surface.total_bits <;>
      simp [negotiate, checkedSub, hc, hd]
  refine ⟨key, ?_⟩
  rw [← key]
  simp only [init_raw]
  cases negotiate Cf Df <;> simp

/-- C6: every operation that produces a color-view/depth-stencil-view pair —
`init_existing_raw`, `init_existing`, `init_raw`, `init`, `update_views_raw`,
`update_views` and `new_views` — produces both views with identical
Dimensions, so the paired-views invariant holds after every operation. -/
theorem paired_views_share_dimensions :
    (∀ (w : WindowNC) (Cf Df : Format) (a : Nat),
      (init_existing_raw w Cf Df a).1.2.2.2.1.dim =
        (init_existing_raw w Cf Df a).1.2.2.2.2.dim) ∧
    (∀ (Cf Df : Format) (w : WindowNC) (a : Nat),
      (init_existing Cf Df w a).1.2.2.2.1.raw.dim =
        (init_existing Cf Df w a).1.2.2.2.2.raw.dim) ∧
    (∀ (wb : WindowBuilder) (cb : ContextBuilder) (el : EventLoop) (Cf Df : Format)
       (a : Nat) (out : (WindowPC × Device × Factory × RawView × RawView) × Nat),
      init_raw wb cb el Cf Df a = some (.ok out) →
        out.1.2.2.2.1.dim = out.1.2.2.2.2.dim) ∧
    (∀ (Cf Df : Format) (wb : WindowBuilder) (cb : ContextBuilder) (el : EventLoop)
       (a : Nat)
       (out : (WindowPC × Device × Factory × RenderTargetView Cf × DepthStencilView Df) × Nat),
      init Cf Df wb cb el a = some (.ok out) →
        out.1.2.2.2.1.raw.dim = out.1.2.2.2.2.raw.dim) ∧
    (∀ (w : WindowPC) (old : Dimensions) (Cf Df : Format) (a : Nat)
       (r : (RawView × RawView) × Nat),
      update_views_raw w old Cf Df a = some r → r.1.1.dim = r.1.2.dim) ∧
    (∀ (Cf Df : Format) (w : WindowPC) (cv : RenderTargetView Cf)
       (dv : DepthStencilView Df) (a : Nat)
       (r : (RenderTargetView Cf × DepthStencilView Df) × Nat),
      update_views Cf Df w cv dv a = some r → r.1.1.raw.dim = r.1.2.raw.dim) ∧
    (∀ (Cf Df : Format) (w : WindowPC) (a : Nat),
      (new_views Cf Df w a).1.1.raw.dim = (new_views Cf Df w a).1.2.raw.dim) := by
  refine ⟨fun w Cf Df a => rfl, fun Cf Df w a => rfl,
          init_raw_ok_dim_eq, ?_, update_views_raw_some_dim_eq,
          update_views_some_dim_eq, fun Cf Df w a => rfl⟩
  intro Cf Df wb cb el a out h
  simp only [init] at h
  split at h
  · exact Option.noConfusion h
  · simp at h
  case h_3 w dev fac cv dv a' heq =>
    rw [Option.some.injEq, Except.ok.injEq] at h
    subst h
    exact init_raw_ok_dim_eq wb cb el Cf Df a ((w, dev, fac, cv, dv), a') heq

/-- Witness for C6 on the `update_views_raw` conjunct: a resize from 800x600
to 1024x768 produces two views that share the 1024x768 dimensions. -/
theorem paired_views_share_dimensions_witness :
    (⟨0, (1024, 768, 1, 0), rgba8S.surface⟩ : RawView).dim =
      (⟨1, (1024, 768, 1, 0), d24s8.surface⟩ : RawView).dim :=
  paired_views_share_dimensions.2.2.2.2.1 ⟨1024, 768, none⟩ (800, 600, 1, 0)
    rgba8S d24s8 0
    ((⟨0, (1024, 768, 1, 0), rgba8S.surface⟩, ⟨1, (1024, 768, 1, 0), d24s8.surface⟩), 2)
    (by decide)

/-- C9: the typed entry points are the raw core plus a zero-runtime type tag:
`init` is exactly `init_raw` at the formats obtained from its type
parameters with the raw views wrapped in typed handles, and `update_views`
replaces its handles exactly when `update_views_raw` at the views' dimensions
and those formats returns new views (returning the untouched handles
otherwise). -/
theorem typed_layer_refines_raw :
    (∀ (Cf Df : Format) (wb : WindowBuilder) (cb : ContextBuilder) (el : EventLoop)
       (a : Nat),
      init Cf Df wb cb el a =
        (init_raw wb cb el Cf Df a).map (Except.map (fun r =>
          ((r.1.1, r.1.2.1, r.1.2.2.1,
            (⟨r.1.2.2.2.1⟩ : RenderTargetView Cf),
            (⟨r.1.2.2.2.2⟩ : DepthStencilView Df)), r.2)))) ∧
    (∀ (Cf Df : Format) (w : WindowPC) (cv : RenderTargetView Cf)
       (dv : DepthStencilView Df) (a : Nat),
      cv.get_dimensions = dv.get_dimensions →
      update_views Cf Df w cv dv a =
        match update_views_raw w cv.get_dimensions Cf Df a with
        | some ((c, d), a') =>
            some (((⟨c⟩ : RenderTargetView Cf), (⟨d⟩ : DepthStencilView Df)), a')
        | none => some ((cv, dv), a)) := by
  constructor
  · intro Cf Df wb cb el a
    cases hir : init_raw wb cb el Cf Df a with
    | none => simp [init, hir]
    | some x =>
      cases x with
      | error e => simp [init, hir, Except.map]
      | ok r =>
        obtain ⟨⟨w, dev, fac, cv, dv⟩, a'⟩ := r
        simp [init, hir, Except.map]
  · intro Cf Df w cv dv a hmatch
    simp only [update_views]
    rw [if_pos hmatch]

/-- Witness for C9 on the `update_views` conjunct: with matching views and no
resize, the handles come back untouched. -/
theorem typed_layer_refines_raw_witness :
    update_views rgba8S d24s8 ⟨800, 600, none⟩
      ⟨⟨0, (800, 600, 1, 0), rgba8S.surface⟩⟩
      ⟨⟨1, (800, 600, 1, 0), d24s8.surface⟩⟩ 5 =
      some ((⟨⟨0, (800, 600, 1, 0), rgba8S.surface⟩⟩,
             ⟨⟨1, (800, 600, 1, 0), d24s8.surface⟩⟩), 5) :=
  typed_layer_refines_raw.2 rgba8S d24s8 ⟨800, 600, none⟩
    ⟨⟨0, (800, 600, 1, 0), rgba8S.surface⟩⟩
    ⟨⟨1, (800, 600, 1, 0), d24s8.surface⟩⟩ 5 rfl

end GfxWindowGlutin
